import Mathlib

/-!
Shallow embedding of the `RetroMusicPlayer` class of
`src/retro_music_player.py`, and theorems settling the spec claims about
its playlist/playback behaviour.

Modelling conventions:
* UI widgets (labels, buttons, album art, sliders as objects) are omitted;
  only the session attributes assigned in `__init__` are kept.
* `random.randint(0, n-1)` is modelled by an explicit parameter `k : Int`
  (the value the call returned); a legitimate draw satisfies
  `0 ≤ k ∧ k ≤ n - 1`.
* `pygame.mixer.music.get_pos()` is modelled by a parameter
  `musicPos : Int` (the source compares it against `-1`, the value pygame
  returns when no music is playing).
* Calls into `pygame.mixer` that may raise inside the `try` block of
  `play_track` are modelled by a Boolean parameter `ok` (exception paths
  leave the session state unchanged, as the `except` handlers only log and
  show a dialog).
* Python `%` on ints with a positive modulus agrees with Lean's `Int`
  `%` (`Int.emod`): both return a value in `[0, n)`.
-/

/-- Session state of the player: the attributes set in
`RetroMusicPlayer.__init__` (lines 38-43 of the source), minus widgets.
`current_track_index` is a Python int, hence `Int`. -/
structure PlayerState where
  playlist : List String
  current_track_index : Int
  is_playing : Bool
  is_shuffled : Bool
  is_repeated : Bool
  crossfade_duration : ℚ
deriving Repr, DecidableEq

/-- The class attribute `SUPPORTED_FORMATS` (line 27 of the source). -/
def SUPPORTED_FORMATS : List String :=
  [".mp3", ".wav", ".flac", ".ogg", ".aac", ".wma", ".m4a", ".aiff", ".opus"]

/-- Index of the last occurrence of `c` in `l` (`str.rfind`): `-1` when
absent. Used to embed `os.path.splitext`. -/
def lastIndexOf (c : Char) : List Char → Int
  | [] => -1
  | x :: xs =>
    let r := lastIndexOf c xs
    if 0 ≤ r then r + 1
    else if x = c then 0 else -1

/-- The extension component of `os.path.splitext(p)` (posix `sep = '/'`,
no altsep): the suffix from the last dot, provided that dot lies after the
last separator and the basename does not consist solely of leading dots
before it (so ".bashrc" has no extension), following CPython's
`genericpath._splitext`. -/
def splitext_ext (p : String) : String :=
  let cs := p.toList
  let sepIndex := lastIndexOf '/' cs
  let dotIndex := lastIndexOf '.' cs
  if sepIndex < dotIndex then
    let base := (cs.drop (sepIndex + 1).toNat).take (dotIndex - (sepIndex + 1)).toNat
    if base.all (fun c => c = '.') then ""
    else String.mk (cs.drop dotIndex.toNat)
  else ""

/-- Python `str.lower()`, character by character (the extensions and
suffixes compared in the source are ASCII, where `Char.toLower` agrees
with Python). -/
def pyLower (s : String) : String := String.mk (s.toList.map Char.toLower)

/-- Outcome of processing one file in `add_tracks` / `dropEvent`: appended
cleanly, appended but a "File Error" dialog shown (metadata/length read
raised), or rejected with the "Unsupported Format" dialog. -/
inductive AddOutcome
  | added
  | fileError
  | unsupported
deriving Repr, DecidableEq

/-- One iteration of the per-file loop shared verbatim by `add_tracks`
(lines 292-305) and `dropEvent` (lines 237-250): compute
`os.path.splitext(file)[1].lower()`; if it is in `SUPPORTED_FORMATS`,
append the path to the playlist (the append precedes the metadata reads,
so it happens even when they raise, modelled by `metaOk = false`);
otherwise show the "Unsupported Format" warning and leave the playlist
untouched. -/
def add_file (metaOk : Bool) (file : String) (s : PlayerState) :
    PlayerState × AddOutcome :=
  let ext := pyLower (splitext_ext file)
  if SUPPORTED_FORMATS.contains ext then
    ({ s with playlist := s.playlist ++ [file] },
     if metaOk then AddOutcome.added else AddOutcome.fileError)
  else (s, AddOutcome.unsupported)

/-- `add_tracks` over the list of files returned by the dialog (the
`dropEvent` handler runs the identical loop over the dropped URLs).
`metaOk` gives the success of the metadata read per file. -/
def add_tracks (metaOk : String → Bool) (files : List String)
    (s : PlayerState) : PlayerState :=
  files.foldl (fun st f => (add_file (metaOk f) f st).1) s

/-- `play_track` (lines 345-362): under `if self.playlist:`, loads and
plays the current track and sets `is_playing = True`; `ok = false` models
an exception from the mixer calls, whose handler only logs and shows a
dialog, leaving the state unchanged. (The indexing
`self.playlist[self.current_track_index]` sits outside the `try`; its
bound is not checked.) -/
def play_track (ok : Bool) (s : PlayerState) : PlayerState :=
  if s.playlist = [] then s
  else if ok then { s with is_playing := true } else s

/-- `toggle_play` (lines 364-378): pauses when playing, unpauses when not;
the only session field changed is `is_playing`, which flips. -/
def toggle_play (s : PlayerState) : PlayerState :=
  { s with is_playing := !s.is_playing }

/-- `next_track` (lines 380-389). Under `if self.playlist:`: when shuffled
the index becomes `random.randint(0, len-1)` (the draw `k`), otherwise
`(index + 1) % len`; then, if repeat is off and the (new) index is `0` and
`get_pos() == -1`, `toggle_play` runs, else `play_track`. -/
def next_track (k musicPos : Int) (ok : Bool) (s : PlayerState) : PlayerState :=
  if s.playlist = [] then s
  else
    let s1 :=
      if s.is_shuffled then { s with current_track_index := k }
      else
        { s with current_track_index :=
            (s.current_track_index + 1) % (s.playlist.length : Int) }
    if s1.is_repeated = false ∧ s1.current_track_index = 0 ∧ musicPos = -1 then
      toggle_play s1
    else play_track ok s1

/-- `prev_track` (lines 391-397). Under `if self.playlist:`: when shuffled
the index becomes `random.randint(0, len-1)` (the draw `k`), otherwise
`(index - 1) % len`; then `play_track` runs unconditionally. -/
def prev_track (k : Int) (ok : Bool) (s : PlayerState) : PlayerState :=
  if s.playlist = [] then s
  else
    let s1 :=
      if s.is_shuffled then { s with current_track_index := k }
      else
        { s with current_track_index :=
            (s.current_track_index - 1) % (s.playlist.length : Int) }
    play_track ok s1

/-- `toggle_shuffle` (lines 399-401): negates `is_shuffled` (the rest of
the method only relabels the button). -/
def toggle_shuffle (s : PlayerState) : PlayerState :=
  { s with is_shuffled := !s.is_shuffled }

/-- `toggle_repeat` (lines 403-405): negates `is_repeated` (the rest of
the method only relabels the button). -/
def toggle_repeat (s : PlayerState) : PlayerState :=
  { s with is_repeated := !s.is_repeated }

/-- `play_selected_track` (lines 341-343): sets the index to the widget
row of the double-clicked item, then plays. -/
def play_selected_track (row : Int) (ok : Bool) (s : PlayerState) : PlayerState :=
  play_track ok { s with current_track_index := row }

/-- `save_playlist` (lines 407-415): when the playlist is non-empty (and a
path is chosen) it writes `json.dump(self.playlist, f)` - the saved JSON
array is exactly the playlist; when empty it warns and writes nothing
(`none`). -/
def save_playlist (s : PlayerState) : Option (List String) :=
  if s.playlist = [] then none else some s.playlist

/-- `track.lower().endswith('.mp3')` as used on line 426 (suffix test on
the lowered character list). -/
def isMp3Path (t : String) : Bool :=
  (".mp3".toList).isSuffixOf (pyLower t).toList

/-- `load_playlist` (lines 417-431) applied to the already-parsed JSON
array `data`. `fs` is the set of paths for which `MP3(track)` succeeds
(it raises for a missing or unreadable file). The method assigns
`self.playlist = json.load(f)` wholly - no entry is skipped and
`current_track_index` is not touched - then iterates to fill the list
widget, reading `MP3(track).info.length` for every entry ending in
".mp3"; the first such entry that raises aborts the loop into the
`except` handler, which shows a "Load Error" dialog ( `false` ) instead
of the success dialog ( `true` ), the playlist keeping its new full
value either way. (`get_track_metadata` catches its own exceptions and
cannot abort the loop.) -/
def load_playlist (fs : List String) (data : List String) (s : PlayerState) :
    PlayerState × Bool :=
  ({ s with playlist := data },
   data.all (fun t => !(isMp3Path t) || fs.contains t))

/-- `adjust_volume` (lines 252-253): passes `value / 100.0` to
`pygame.mixer.music.set_volume` with no clamping of its own; the volume
slider that drives it is created with `setRange(0, 100)` (line 188). -/
def adjust_volume (value : ℚ) : ℚ := value / 100

/-- `update_progress` (lines 255-266), the 1-second progress-timer tick
handler, with `busy = pygame.mixer.music.get_busy()` (false once the
track has finished), `current_pos = get_pos() / 1000` and `total_length`
the MP3 length. It returns the session state - unchanged on every path:
the handler only sets the progress bar (whose displayed value is the
second component, `none` when nothing is set) and the track label; an
exception from the metadata read is caught and ignored. Python's `int()`
truncation agrees with the floor used here on the non-negative values
that occur. -/
def update_progress (busy : Bool) (current_pos total_length : ℚ)
    (s : PlayerState) : PlayerState × Option Int :=
  if busy then
    if s.playlist ≠ [] ∧ s.current_track_index < (s.playlist.length : Int) then
      (s, some (if 0 < total_length then ⌊current_pos / total_length * 100⌋ else 0))
    else (s, none)
  else (s, none)

/-- Concrete two-track session used by witnesses: shuffle and repeat off,
index 0, not playing. -/
def sA : PlayerState :=
  { playlist := ["a.mp3", "b.flac"], current_track_index := 0,
    is_playing := false, is_shuffled := false, is_repeated := false,
    crossfade_duration := 2 }

/-- Concrete two-track session with shuffle enabled, index 0. -/
def sS : PlayerState :=
  { playlist := ["a.mp3", "b.flac"], current_track_index := 0,
    is_playing := true, is_shuffled := true, is_repeated := false,
    crossfade_duration := 2 }

/-- Concrete session playing the last track of a two-track playlist,
shuffle and repeat off. -/
def sEnd : PlayerState :=
  { playlist := ["a.mp3", "b.flac"], current_track_index := 1,
    is_playing := true, is_shuffled := false, is_repeated := false,
    crossfade_duration := 2 }

/-- Concrete three-track session with index 2, used to exhibit the
out-of-bounds index left behind by `load_playlist`. -/
def sB : PlayerState :=
  { playlist := ["a.mp3", "b.mp3", "c.mp3"], current_track_index := 2,
    is_playing := false, is_shuffled := false, is_repeated := false,
    crossfade_duration := 2 }

/-- Claim C7 (confirmed): for every non-empty playlist and every current
index, when shuffle is disabled next_track sets the current index to
exactly (index + 1) mod length (the subsequent toggle_play / play_track
call leaves the index alone). -/
theorem next_track_no_shuffle_mod (s : PlayerState) (k musicPos : Int) (ok : Bool)
    (hne : s.playlist ≠ []) (hsh : s.is_shuffled = false) :
    (next_track k musicPos ok s).current_track_index
      = (s.current_track_index + 1) % (s.playlist.length : Int) := by
  unfold next_track
  rw [if_neg hne]
  simp only [hsh, Bool.false_eq_true, if_false]
  split
  · rfl
  · unfold play_track
    split
    · rfl
    · split <;> rfl

/-- Witness for C7: in the two-track non-shuffled session sA at index 0,
next_track moves the index to (0 + 1) mod 2. -/
theorem next_track_no_shuffle_mod_witness :
    sA.playlist ≠ [] ∧ sA.is_shuffled = false ∧
    (next_track 0 0 true sA).current_track_index
      = (sA.current_track_index + 1) % (sA.playlist.length : Int) :=
  ⟨by decide, rfl, next_track_no_shuffle_mod sA 0 0 true (by decide) rfl⟩

/-- Claim C1, counterexample: in the shuffled two-track session sS at
index 0, the draw k = 0 is a legitimate randint(0, length - 1) value, yet
next_track then leaves the current index equal to the old one - shuffle
does not avoid repeating the current track. -/
theorem shuffle_next_can_repeat_current :
    1 < sS.playlist.length ∧ sS.is_shuffled = true ∧
    ((0:Int) ≤ 0 ∧ (0:Int) ≤ (sS.playlist.length : Int) - 1) ∧
    (next_track 0 0 true sS).current_track_index = sS.current_track_index := by
  decide

/-- Claim C1 as amended: under shuffle, next_track sets the current index
to whatever random.randint(0, length - 1) returned, a value that ranges
over the whole playlist and may equal the current index. -/
theorem next_track_shuffle_is_draw (s : PlayerState) (k musicPos : Int) (ok : Bool)
    (hne : s.playlist ≠ []) (hsh : s.is_shuffled = true) :
    (next_track k musicPos ok s).current_track_index = k := by
  unfold next_track
  rw [if_neg hne]
  simp only [hsh, if_true]
  split
  · rfl
  · unfold play_track
    split
    · rfl
    · split <;> rfl

/-- Witness for amended C1: in the shuffled session sS, next_track with
draw 1 sets the index to 1. -/
theorem next_track_shuffle_is_draw_witness :
    sS.playlist ≠ [] ∧ sS.is_shuffled = true ∧
    (next_track 1 0 true sS).current_track_index = 1 :=
  ⟨by decide, rfl, next_track_shuffle_is_draw sS 1 0 true (by decide) rfl⟩

/-- Claim C2, counterexample: in the shuffled two-track session sS at
index 0, prev_track with the legitimate draw k = 0 leaves the index at 0,
whereas (0 - 1) mod 2 = 1 - so previous() is not (current - 1) mod length
when shuffle is enabled. -/
theorem prev_track_shuffle_not_decrement :
    sS.is_shuffled = true ∧ sS.playlist ≠ [] ∧
    ((0:Int) ≤ 0 ∧ (0:Int) ≤ (sS.playlist.length : Int) - 1) ∧
    (prev_track 0 true sS).current_track_index
      ≠ (sS.current_track_index - 1) % (sS.playlist.length : Int) := by
  decide

/-- Claim C2 as amended: for every non-empty playlist, prev_track sets the
current index to (current - 1) mod length when shuffle is disabled, and to
the random.randint(0, length - 1) draw when shuffle is enabled. -/
theorem prev_track_index_cases (s : PlayerState) (k : Int) (ok : Bool)
    (hne : s.playlist ≠ []) :
    (prev_track k ok s).current_track_index =
      if s.is_shuffled then k
      else (s.current_track_index - 1) % (s.playlist.length : Int) := by
  unfold prev_track
  rw [if_neg hne]
  unfold play_track
  by_cases hs : s.is_shuffled <;>
    simp only [hs, if_true, Bool.false_eq_true, if_false] <;>
    · split
      · rfl
      · split <;> rfl

/-- Witness for amended C2: in the non-shuffled session sA at index 0,
prev_track moves the index to (0 - 1) mod 2 = 1. -/
theorem prev_track_index_cases_witness :
    sA.playlist ≠ [] ∧
    (prev_track 0 true sA).current_track_index =
      if sA.is_shuffled then 0
      else (sA.current_track_index - 1) % (sA.playlist.length : Int) :=
  ⟨by decide, prev_track_index_cases sA 0 true (by decide)⟩

/-- Claim C3, counterexample: after saving the playlist of sA and loading
it back when "b.flac" no longer resolves on disk (fs = ["a.mp3"]), the
loaded playlist still contains "b.flac" and the load even reports
success - unresolved entries are neither skipped nor counted. -/
theorem load_keeps_unresolved_path :
    save_playlist sA = some ["a.mp3", "b.flac"] ∧
    List.contains ["a.mp3"] "b.flac" = false ∧
    "b.flac" ∈ ((load_playlist ["a.mp3"] ["a.mp3", "b.flac"] sA).1).playlist ∧
    (load_playlist ["a.mp3"] ["a.mp3", "b.flac"] sA).2 = true := by
  decide

/-- Claim C3 as amended: save then load replaces the playlist with exactly
the saved list - the order of ALL paths is preserved, including those
that no longer resolve, and nothing is skipped or counted; the load
reports success precisely when every ".mp3" entry still opens (a missing
mp3 aborts the widget loop into the error dialog, the playlist keeping
its new full value either way). -/
theorem save_load_roundtrip_full (s s2 : PlayerState) (fs d : List String)
    (h : save_playlist s = some d) :
    ((load_playlist fs d s2).1).playlist = s.playlist ∧
    (((load_playlist fs d s2).2 = true) ↔
      ∀ t ∈ s.playlist, isMp3Path t = true → fs.contains t = true) := by
  unfold save_playlist at h
  split at h
  · exact absurd h (by simp)
  · injection h with h'
    subst h'
    unfold load_playlist
    refine ⟨rfl, ?_⟩
    simp only [List.all_eq_true]
    constructor
    · intro hall t ht hm
      have := hall t ht
      rw [hm] at this
      simpa using this
    · intro himp t ht
      by_cases hm : isMp3Path t = true
      · have h2 := himp t ht hm
        simp at h2
        simp [hm, h2]
      · simp [Bool.not_eq_true] at hm
        simp [hm]

/-- Witness for amended C3: the session sA saves to its two-path list,
and loading that list back with only "a.mp3" resolving restores the
playlist in full. -/
theorem save_load_roundtrip_full_witness :
    save_playlist sA = some ["a.mp3", "b.flac"] ∧
    (((load_playlist ["a.mp3"] ["a.mp3", "b.flac"] sS).1).playlist = sA.playlist ∧
     (((load_playlist ["a.mp3"] ["a.mp3", "b.flac"] sS).2 = true) ↔
       ∀ t ∈ sA.playlist, isMp3Path t = true → List.contains ["a.mp3"] t = true)) :=
  ⟨by decide, save_load_roundtrip_full sA sS ["a.mp3"] ["a.mp3", "b.flac"] (by decide)⟩

/-- Claim C4, counterexample: in the session sEnd - playing the last
track, repeat off - a natural track end only makes the periodic timer
handlers fire with busy = false, and update_progress (like the equalizer
and visualizer handlers) leaves the session state untouched: the session
stays marked playing instead of transitioning to Stopped. No handler for
natural end-of-track exists. -/
theorem natural_end_no_transition :
    sEnd.is_playing = true ∧ sEnd.is_repeated = false ∧
    sEnd.current_track_index = (sEnd.playlist.length : Int) - 1 ∧
    (update_progress false 0 0 sEnd).1 = sEnd ∧
    ((update_progress false 0 0 sEnd).1).is_playing = true := by
  decide

/-- Claim C4 as amended: the code has no natural-end handler (the session
state is unchanged when a track ends on its own); the stop-instead-of-wrap
guard lives only in manual next_track: with shuffle off, repeat off, the
current index at length - 1 and the music already ended (get_pos = -1),
next_track wraps the index to 0 but calls toggle_play, pausing playback
(is_playing becomes false) instead of playing track 0. -/
theorem next_track_after_end_pauses (s : PlayerState) (k : Int) (ok : Bool)
    (hne : s.playlist ≠ []) (hsh : s.is_shuffled = false)
    (hrep : s.is_repeated = false)
    (hlast : s.current_track_index = (s.playlist.length : Int) - 1)
    (hplay : s.is_playing = true) :
    (next_track k (-1) ok s).current_track_index = 0 ∧
    (next_track k (-1) ok s).is_playing = false := by
  have hidx : (s.current_track_index + 1) % (s.playlist.length : Int) = 0 := by
    rw [hlast, Int.sub_add_cancel, Int.emod_self]
  unfold next_track
  rw [if_neg hne]
  simp only [hsh, Bool.false_eq_true, if_false]
  split
  · exact ⟨hidx, by simp [toggle_play, hplay]⟩
  · rename_i hcond
    refine absurd ⟨hrep, hidx, ?_⟩ hcond
    trivial

/-- Witness for amended C4: in sEnd (index 1 of 2, repeat off, playing),
next_track with ended music wraps the index to 0 and pauses. -/
theorem next_track_after_end_pauses_witness :
    sEnd.playlist ≠ [] ∧ sEnd.is_shuffled = false ∧ sEnd.is_repeated = false ∧
    sEnd.current_track_index = (sEnd.playlist.length : Int) - 1 ∧
    sEnd.is_playing = true ∧
    ((next_track 0 (-1) true sEnd).current_track_index = 0 ∧
     (next_track 0 (-1) true sEnd).is_playing = false) :=
  ⟨by decide, rfl, rfl, by decide, rfl,
   next_track_after_end_pauses sEnd 0 true (by decide) rfl rfl (by decide) rfl⟩

/-- Claim C5 (code_bug evidence): loading a one-track playlist into the
session sB, whose current index is 2, leaves the index at 2 while the new
playlist has length 1 - the invariant 0 ≤ index < length fails after
load_playlist even though the playlist is non-empty (and a subsequent
play_track would index the playlist out of bounds, outside its try
block). -/
theorem load_playlist_breaks_index_invariant :
    ((load_playlist [] ["x.wav"] sB).1).playlist ≠ [] ∧
    ¬ (0 ≤ ((load_playlist [] ["x.wav"] sB).1).current_track_index ∧
       ((load_playlist [] ["x.wav"] sB).1).current_track_index
         < (((load_playlist [] ["x.wav"] sB).1).playlist.length : Int)) := by
  decide

/-- Claim C6, counterexample: adjust_volume performs no clamping - on
input -1 the gain is -1/100, not 0, and on input 2 the gain is 1/50,
not 1. -/
theorem adjust_volume_no_clamp :
    adjust_volume (-1) = -(1/100) ∧ adjust_volume (-1) ≠ 0 ∧
    adjust_volume 2 = 1/50 ∧ adjust_volume 2 ≠ 1 := by
  norm_num [adjust_volume]

/-- Claim C6 as amended: adjust_volume sets the gain to value / 100 with
no clamping of its own; since the driving volume slider is created with
range [0, 100], the resulting gain lies in [0, 1] for every slider
value. -/
theorem adjust_volume_slider_range (v : ℚ) (h0 : 0 ≤ v) (h1 : v ≤ 100) :
    adjust_volume v = v / 100 ∧ 0 ≤ adjust_volume v ∧ adjust_volume v ≤ 1 := by
  refine ⟨rfl, ?_, ?_⟩
  · show (0:ℚ) ≤ v / 100
    positivity
  · show v / 100 ≤ 1
    rw [div_le_one (by norm_num)]
    linarith

/-- Witness for amended C6: the default slider value 50 gives gain 1/2,
inside [0, 1]. -/
theorem adjust_volume_slider_range_witness :
    (0:ℚ) ≤ 50 ∧ (50:ℚ) ≤ 100 ∧
    (adjust_volume 50 = 50 / 100 ∧ 0 ≤ adjust_volume 50 ∧ adjust_volume 50 ≤ 1) :=
  ⟨by norm_num, by norm_num, adjust_volume_slider_range 50 (by norm_num) (by norm_num)⟩

/-- Claim C8 (confirmed): a file whose lowered extension is not in
SUPPORTED_FORMATS is rejected by the shared add loop of add_tracks and
dropEvent: the playlist (and the whole state) is unchanged and the
"Unsupported Format" warning is reported. -/
theorem add_file_unsupported_rejected (s : PlayerState) (metaOk : Bool)
    (file : String)
    (h : SUPPORTED_FORMATS.contains (pyLower (splitext_ext file)) = false) :
    add_file metaOk file s = (s, AddOutcome.unsupported) := by
  unfold add_file
  simp only [h, Bool.false_eq_true, if_false]

/-- Witness for C8: "mixtape.txt" has extension ".txt", unsupported, and
adding it leaves sA unchanged with the unsupported outcome. -/
theorem add_file_unsupported_rejected_witness :
    SUPPORTED_FORMATS.contains (pyLower (splitext_ext "mixtape.txt")) = false ∧
    add_file true "mixtape.txt" sA = (sA, AddOutcome.unsupported) :=
  ⟨by decide, add_file_unsupported_rejected sA true "mixtape.txt" (by decide)⟩

/-- Claim C9 (confirmed): toggle_shuffle and toggle_repeat each change
exactly their own flag (negating it), and applying either twice restores
the whole state. -/
theorem toggle_flags_involutive (s : PlayerState) :
    toggle_shuffle s = { s with is_shuffled := !s.is_shuffled } ∧
    toggle_repeat s = { s with is_repeated := !s.is_repeated } ∧
    toggle_shuffle (toggle_shuffle s) = s ∧
    toggle_repeat (toggle_repeat s) = s := by
  refine ⟨rfl, rfl, ?_, ?_⟩ <;> simp [toggle_shuffle, toggle_repeat]

/-- Claim C10 (confirmed): for every state and every randint draw, music
position and mixer outcome, next_track and prev_track leave the playlist,
the shuffle flag, the repeat flag and the crossfade duration unchanged -
they touch only the current index and is_playing. -/
theorem next_prev_frame_conditions (s : PlayerState) (k musicPos : Int) (ok : Bool) :
    ((next_track k musicPos ok s).playlist = s.playlist ∧
     (next_track k musicPos ok s).is_shuffled = s.is_shuffled ∧
     (next_track k musicPos ok s).is_repeated = s.is_repeated ∧
     (next_track k musicPos ok s).crossfade_duration = s.crossfade_duration) ∧
    ((prev_track k ok s).playlist = s.playlist ∧
     (prev_track k ok s).is_shuffled = s.is_shuffled ∧
     (prev_track k ok s).is_repeated = s.is_repeated ∧
     (prev_track k ok s).crossfade_duration = s.crossfade_duration) := by
  refine ⟨?_, ?_⟩
  · unfold next_track toggle_play play_track
    split_ifs <;> simp_all <;> split_ifs <;> simp_all
  · unfold prev_track play_track
    split_ifs <;> simp_all
